import Mathlib

/-!
# Verification of the libdns record codec and the Hetzner binding

This file gives a shallow embedding of the Rust sources of the `libdns`
crate (src/lib.rs, src/hetzner/mod.rs, src/hetzner/api.rs) and proves or
refutes the specified properties about them.

Conventions of the embedding:

* Rust `u8`/`u16`/`u32`/`u64` values are represented as `Nat`; every
  construction site bounds them exactly as the Rust code does (the
  numeric parsers reject out-of-range values the way the checked
  arithmetic of `from_str_radix` does), and no arithmetic below can
  overflow, so no explicit modulus is needed.
* `async` functions and the HTTP transport are embedded by passing an
  explicit oracle (`ApiClient`) whose methods return `Except ReqError`
  results: one deterministic answer per distinct remote request.  A
  `reqwest::Error` is abstracted as `ReqError`: either an HTTP status
  error (`err.is_status()` with a code) or some other transport failure.
* Every binding operation additionally returns the list of remote calls
  it issued, in order, so that call-count properties can be stated.
* The unbounded `loop` of the pagination aggregator is embedded with a
  fuel parameter; `none` means the loop did not finish within the given
  fuel, which lets nontermination be stated as: no fuel suffices.
-/

/-! ## Models of the Rust standard library pieces the codec calls -/

/-- Model of Rust `char::is_whitespace`: the Unicode `White_Space` code
points, as listed in the Rust documentation. -/
def isRustWhitespace (c : Char) : Bool :=
  let n := c.toNat
  decide ((0x9 ≤ n ∧ n ≤ 0xD) ∨ n = 0x20 ∨ n = 0x85 ∨ n = 0xA0 ∨ n = 0x1680 ∨
    (0x2000 ≤ n ∧ n ≤ 0x200A) ∨ n = 0x2028 ∨ n = 0x2029 ∨ n = 0x202F ∨
    n = 0x205F ∨ n = 0x3000)

/-- Helper for `splitWhitespace`: walks the characters keeping the current
(reversed) token. -/
def splitWhitespaceAux : List Char → List Char → List String
  | [], [] => []
  | [], cur => [String.mk cur.reverse]
  | c :: cs, cur =>
    if isRustWhitespace c then
      match cur with
      | [] => splitWhitespaceAux cs []
      | _ => String.mk cur.reverse :: splitWhitespaceAux cs []
    else splitWhitespaceAux cs (c :: cur)

/-- Model of Rust `str::split_whitespace`: the maximal runs of
non-whitespace characters, in order; empty tokens never occur. -/
def splitWhitespace (s : String) : List String :=
  splitWhitespaceAux s.toList []

/-- Model of Rust `str::parse::<u16>` (`u16::from_str`): an optional
leading `+`, then one or more ASCII decimal digits, value at most
`0xFFFF`; anything else fails.  The checked arithmetic of
`from_str_radix` fails exactly when the final value would exceed the
type, because the accumulator is monotone. -/
def parseU16 (s : String) : Option Nat :=
  let digits :=
    match s.toList with
    | '+' :: rest => rest
    | l => l
  if digits.isEmpty then none
  else if digits.all Char.isDigit then
    let v := digits.foldl (fun acc c => acc * 10 + (c.toNat - 48)) 0
    if v ≤ 65535 then some v else none
  else none

/-- Model of Rust `std::net::Ipv4Addr`: four octets, each in `0..=255` by
construction of the parser. -/
structure Ipv4Addr where
  o1 : Nat
  o2 : Nat
  o3 : Nat
  o4 : Nat
deriving DecidableEq, Repr

/-- Model of Rust `std::net::Ipv6Addr`: eight 16-bit segments. -/
structure Ipv6Addr where
  s0 : Nat
  s1 : Nat
  s2 : Nat
  s3 : Nat
  s4 : Nat
  s5 : Nat
  s6 : Nat
  s7 : Nat
deriving DecidableEq, Repr

/-- Hexadecimal digit test of Rust `char::to_digit(16)` (ASCII only). -/
def isHexDigitChar (c : Char) : Bool :=
  c.isDigit || ('a' ≤ c && c ≤ 'f') || ('A' ≤ c && c ≤ 'F')

/-- Value of a hexadecimal digit accepted by `isHexDigitChar`. -/
def hexVal (c : Char) : Nat :=
  if c.isDigit then c.toNat - 48
  else if 'a' ≤ c then c.toNat - 87
  else c.toNat - 55

/-- Model of the std parser `read_number(10, Some(3), false)` at type
`u8`, as used for one IPv4 octet: consumes the maximal run of decimal
digits; fails when the run is empty, longer than three digits, has a
leading zero before further digits, or exceeds `255` (the checked `u8`
arithmetic).  Returns the value and the unconsumed rest. -/
def readNumberDecU8 (cs : List Char) : Option (Nat × List Char) :=
  let run := cs.takeWhile Char.isDigit
  if run.isEmpty then none
  else if 3 < run.length then none
  else if 1 < run.length ∧ run.head? = some '0' then none
  else
    let v := run.foldl (fun acc c => acc * 10 + (c.toNat - 48)) 0
    if 255 < v then none else some (v, cs.dropWhile Char.isDigit)

/-- Model of the std parser `read_number(16, Some(4), true)` at type
`u16`, as used for one IPv6 group: the maximal run of hexadecimal
digits; fails when the run is empty or longer than four digits. -/
def readNumberHexU16 (cs : List Char) : Option (Nat × List Char) :=
  let run := cs.takeWhile isHexDigitChar
  if run.isEmpty then none
  else if 4 < run.length then none
  else some (run.foldl (fun acc c => acc * 16 + hexVal c) 0, cs.dropWhile isHexDigitChar)

/-- Model of the std parser `read_separator(sep, i, inner)`: for every
position but the first, a separator character must precede the item.
Failure consumes nothing (the caller keeps its own rest). -/
def readSep (sep : Char) (i : Nat) (inner : List Char → Option (α × List Char))
    (cs : List Char) : Option (α × List Char) :=
  if i = 0 then inner cs
  else
    match cs with
    | c :: rest => if c = sep then inner rest else none
    | [] => none

/-- Model of the std parser `read_ipv4_addr`: four dot-separated octets.
Atomic: failure consumes nothing. -/
def readIpv4 (cs : List Char) : Option (Ipv4Addr × List Char) := do
  let (a, cs) ← readSep '.' 0 readNumberDecU8 cs
  let (b, cs) ← readSep '.' 1 readNumberDecU8 cs
  let (c, cs) ← readSep '.' 2 readNumberDecU8 cs
  let (d, cs) ← readSep '.' 3 readNumberDecU8 cs
  pure (⟨a, b, c, d⟩, cs)

/-- Model of the std helper `read_groups` of `read_ipv6_addr`: reads up
to `rem` colon-separated 16-bit groups starting at position `i`; when at
least two slots remain it first tries a trailing embedded IPv4 address,
which fills two groups and ends the read.  Returns the groups read, a
flag for the embedded IPv4 form, and the unconsumed rest. -/
def readGroups : Nat → Nat → List Char → (List Nat × Bool × List Char)
  | _, 0, cs => ([], false, cs)
  | i, rem + 1, cs =>
    let ipv4Res : Option (Ipv4Addr × List Char) :=
      if 1 ≤ rem then readSep ':' i readIpv4 cs else none
    match ipv4Res with
    | some (v4, rest) => ([v4.o1 * 256 + v4.o2, v4.o3 * 256 + v4.o4], true, rest)
    | none =>
      match readSep ':' i readNumberHexU16 cs with
      | some (g, rest) =>
        let (gs, sawV4, rest') := readGroups (i + 1) rem rest
        (g :: gs, sawV4, rest')
      | none => ([], false, cs)

/-- Builds an `Ipv6Addr` from at most eight segments, padding with
zeros. -/
def ipv6OfList (l : List Nat) : Ipv6Addr :=
  ⟨l.getD 0 0, l.getD 1 0, l.getD 2 0, l.getD 3 0,
   l.getD 4 0, l.getD 5 0, l.getD 6 0, l.getD 7 0⟩

/-- Model of the std parser `read_ipv6_addr`: a head of up to eight
groups; a full head is the whole address, an embedded IPv4 before `::`
is rejected, otherwise a `::` followed by a tail of at most
`8 - (head + 1)` groups, the gap filled with zero groups. -/
def readIpv6 (cs : List Char) : Option (Ipv6Addr × List Char) :=
  let (head, headIpv4, rest) := readGroups 0 8 cs
  if head.length = 8 then some (ipv6OfList head, rest)
  else if headIpv4 then none
  else
    match rest with
    | ':' :: ':' :: rest2 =>
      let limit := 8 - (head.length + 1)
      let (tail, _, rest3) := readGroups 0 limit rest2
      some (ipv6OfList (head ++ List.replicate (8 - head.length - tail.length) 0 ++ tail), rest3)
    | _ => none

/-- Model of Rust `Ipv4Addr::from_str`: the whole string must be
consumed. -/
def parseIpv4 (s : String) : Option Ipv4Addr :=
  match readIpv4 s.toList with
  | some (a, []) => some a
  | _ => none

/-- Model of Rust `Ipv6Addr::from_str`: the whole string must be
consumed. -/
def parseIpv6 (s : String) : Option Ipv6Addr :=
  match readIpv6 s.toList with
  | some (a, []) => some a
  | _ => none

/-- Model of the `Display` impl of `Ipv4Addr`: dotted decimal. -/
def ipv4ToString (a : Ipv4Addr) : String :=
  toString a.o1 ++ "." ++ toString a.o2 ++ "." ++ toString a.o3 ++ "." ++ toString a.o4

/-- The eight segments of an `Ipv6Addr`, in order. -/
def Ipv6Addr.segments (a : Ipv6Addr) : List Nat :=
  [a.s0, a.s1, a.s2, a.s3, a.s4, a.s5, a.s6, a.s7]

/-- Lowercase hexadecimal rendering of one IPv6 segment (Rust
format `x`). -/
def hexStr (n : Nat) : String :=
  String.mk (Nat.toDigits 16 n)

/-- Model of the zero-run search of the `Display` impl of `Ipv6Addr`:
the start and length of the first longest run of zero segments (a later
run of equal length never replaces an earlier one, because the update is
on strict increase). -/
def longestZeroRun (segs : List Nat) : Nat × Nat :=
  let step := fun (st : (Nat × Nat) × (Nat × Nat) × Nat) (seg : Nat) =>
    let (longest, current, i) := st
    if seg = 0 then
      let current' := if current.2 = 0 then (i, 1) else (current.1, current.2 + 1)
      let longest' := if longest.2 < current'.2 then current' else longest
      (longest', current', i + 1)
    else
      (longest, (0, 0), i + 1)
  (segs.foldl step ((0, 0), (0, 0), 0)).1

/-- Colon-joined lowercase-hex rendering of a run of segments. -/
def joinColon (segs : List Nat) : String :=
  String.intercalate ":" (segs.map hexStr)

/-- Model of the `Display` impl of `Ipv6Addr`: special cases for the
unspecified address, the loopback address and IPv4-mapped addresses,
otherwise `::`-compression of the first longest zero run of length at
least two. -/
def ipv6ToString (a : Ipv6Addr) : String :=
  if a.segments = [0, 0, 0, 0, 0, 0, 0, 0] then "::"
  else if a.segments = [0, 0, 0, 0, 0, 0, 0, 1] then "::1"
  else if a.s0 = 0 ∧ a.s1 = 0 ∧ a.s2 = 0 ∧ a.s3 = 0 ∧ a.s4 = 0 ∧ a.s5 = 0xffff then
    "::ffff:" ++ ipv4ToString ⟨a.s6 / 256, a.s6 % 256, a.s7 / 256, a.s7 % 256⟩
  else
    let (start, len) := longestZeroRun a.segments
    if 1 < len then
      joinColon (a.segments.take start) ++ "::" ++ joinColon (a.segments.drop (start + len))
    else joinColon a.segments

/-! ## The `RecordData` codec (src/lib.rs) -/

/-- `RecordData` of src/lib.rs: a DNS record value. -/
inductive RecordData where
  | A (addr : Ipv4Addr)
  | AAAA (addr : Ipv6Addr)
  | CNAME (aliasName : String)
  | MX (priority : Nat) (mail_server : String)
  | NS (ns : String)
  | SRV (priority weight port : Nat) (target : String)
  | TXT (val : String)
  | Other (typ value : String)
deriving DecidableEq, Repr

/-- `RecordData::from_raw` of src/lib.rs.  The two iterator `next` calls
of the `MX` arm are the first two whitespace tokens; the four of the
`SRV` arm are the first four. -/
def RecordData.from_raw (typ value : String) : RecordData :=
  let data : Option RecordData :=
    match typ with
    | "A" => (parseIpv4 value).map (fun addr => RecordData.A addr)
    | "AAAA" => (parseIpv6 value).map (fun addr => RecordData.AAAA addr)
    | "CNAME" => some (RecordData.CNAME value)
    | "MX" =>
      let toks := splitWhitespace value
      let priority := toks[0]?.bind parseU16
      let server := toks[1]?
      match priority, server with
      | some p, some s => some (RecordData.MX p s)
      | _, _ => none
    | "NS" => some (RecordData.NS value)
    | "SRV" =>
      let toks := splitWhitespace value
      let priority := toks[0]?.bind parseU16
      let weight := toks[1]?.bind parseU16
      let port := toks[2]?.bind parseU16
      let target := toks[3]?
      match priority, weight, port, target with
      | some p, some w, some pt, some t => some (RecordData.SRV p w pt t)
      | _, _, _, _ => none
    | "TXT" => some (RecordData.TXT value)
    | _ => none
  data.getD (RecordData.Other typ value)

/-- `RecordData::get_type` of src/lib.rs.  Note: the `AAAA` arm of the
source returns the string `"A"`. -/
def RecordData.get_type : RecordData → String
  | RecordData.A _ => "A"
  | RecordData.AAAA _ => "A"
  | RecordData.CNAME _ => "CNAME"
  | RecordData.MX _ _ => "MX"
  | RecordData.NS _ => "NS"
  | RecordData.SRV _ _ _ _ => "SRV"
  | RecordData.TXT _ => "TXT"
  | RecordData.Other typ _ => typ

/-- `RecordData::get_value` of src/lib.rs. -/
def RecordData.get_value : RecordData → String
  | RecordData.A addr => ipv4ToString addr
  | RecordData.AAAA addr => ipv6ToString addr
  | RecordData.CNAME aliasName => aliasName
  | RecordData.MX priority mail_server => toString priority ++ " " ++ mail_server
  | RecordData.NS ns => ns
  | RecordData.SRV priority weight port target =>
    toString priority ++ " " ++ toString weight ++ " " ++ toString port ++ " " ++ target
  | RecordData.TXT val => val
  | RecordData.Other _ value => value

/-! ## Wire types of the Hetzner API (src/hetzner/api.rs) -/

/-- `api::ZoneStatus`. -/
inductive ZoneStatus where
  | Verified
  | Failed
  | Pending
deriving DecidableEq, Repr

/-- `api::Zone`: the wire representation of a zone. -/
structure ApiZone where
  id : String
  name : String
  status : ZoneStatus
  ttl : Nat
deriving DecidableEq, Repr

/-- `api::Record`: the wire representation of a record; the TTL may be
absent. -/
structure ApiRecord where
  id : String
  name : String
  ttl : Option Nat
  typ : String
  value : String
  zone_id : String
deriving DecidableEq, Repr

/-- `api::Pagination`. -/
structure Pagination where
  last_page : Nat
  page : Nat
  per_page : Nat
  total_entries : Nat
deriving DecidableEq, Repr

/-- `api::Meta`. -/
structure Meta where
  pagination : Pagination
deriving DecidableEq, Repr

/-- `api::ZoneResponse`. -/
structure ZoneResponse where
  zone : ApiZone
deriving DecidableEq, Repr

/-- `api::ZonesResponse`. -/
structure ZonesResponse where
  meta : Meta
  zones : List ApiZone
deriving DecidableEq, Repr

/-- `api::RecordResponse`. -/
structure RecordResponse where
  record : ApiRecord
deriving DecidableEq, Repr

/-- `api::RecordsResponse`. -/
structure RecordsResponse where
  meta : Meta
  records : List ApiRecord
deriving DecidableEq, Repr

/-- Abstraction of `reqwest::Error`: either an HTTP status failure
(`err.is_status()` holds and `err.status()` is the code) or any other
transport failure. -/
inductive ReqError where
  | status (code : Nat)
  | transport
deriving DecidableEq, Repr

/-! ## The generic error taxonomy (src/lib.rs) -/

/-- `RetrieveZoneError<T>` of src/lib.rs. -/
inductive RetrieveZoneError (T : Type) where
  | Unauthorized
  | NotFound
  | Custom (err : T)
deriving DecidableEq, Repr

/-- `CreateZoneError<T>` of src/lib.rs. -/
inductive CreateZoneError (T : Type) where
  | Unauthorized
  | InvalidDomainName
  | Custom (err : T)
deriving DecidableEq, Repr

/-- `DeleteZoneError<T>` of src/lib.rs. -/
inductive DeleteZoneError (T : Type) where
  | Unauthorized
  | NotFound
  | Custom (err : T)
deriving DecidableEq, Repr

/-- `RetrieveRecordError<T>` of src/lib.rs. -/
inductive RetrieveRecordError (T : Type) where
  | Unauthorized
  | NotFound
  | Custom (err : T)
deriving DecidableEq, Repr

/-- `CreateRecordError<T>` of src/lib.rs. -/
inductive CreateRecordError (T : Type) where
  | Unauthorized
  | UnsupportedType
  | InvalidRecord
  | Custom (err : T)
deriving DecidableEq, Repr

/-- `DeleteRecordError<T>` of src/lib.rs. -/
inductive DeleteRecordError (T : Type) where
  | Unauthorized
  | NotFound
  | Custom (err : T)
deriving DecidableEq, Repr

/-- `Record` of src/lib.rs: the generic record handed to callers. -/
structure Record where
  id : String
  host : String
  data : RecordData
  ttl : Nat
deriving DecidableEq, Repr

/-! ## The Hetzner binding (src/hetzner/mod.rs) -/

/-- `SUPPORTED_RECORD_TYPES` of src/hetzner/mod.rs. -/
def SUPPORTED_RECORD_TYPES : List String :=
  ["A", "AAAA", "NS", "MX", "CNAME", "RP", "TXT", "SOA", "HINFO", "SRV", "DANE", "TLSA", "DS",
   "CAA"]

/-- One remote request, as issued by `api::Client` (src/hetzner/api.rs).
Binding operations report the sequence of requests they made. -/
inductive ApiCall where
  | retrieveZone (zoneId : String)
  | retrieveZones (page perPage : Nat)
  | createZone (domain : String)
  | deleteZone (zoneId : String)
  | retrieveRecords (zoneId : String) (page perPage : Nat)
  | retrieveRecord (recordId : String)
  | createRecord (zoneId host typ value : String) (ttl : Option Nat)
  | deleteRecord (recordId : String)
deriving DecidableEq, Repr

/-- Oracle embedding of `api::Client`: one deterministic transport
outcome per distinct remote request. -/
structure ApiClient where
  retrieveZone : String → Except ReqError ZoneResponse
  retrieveZones : Nat → Nat → Except ReqError ZonesResponse
  createZone : String → Except ReqError ZoneResponse
  deleteZone : String → Except ReqError Unit
  retrieveRecords : String → Nat → Nat → Except ReqError RecordsResponse
  retrieveRecord : String → Except ReqError RecordResponse
  createRecord : String → String → String → String → Option Nat → Except ReqError RecordResponse
  deleteRecord : String → Except ReqError Unit

/-- `HetznerZone` of src/hetzner/mod.rs; the shared `Rc<api::Client>` is
passed explicitly to each operation in this embedding. -/
structure HetznerZone where
  repr : ApiZone
deriving DecidableEq, Repr

/-- The error-mapping closure of `HetznerProvider::get_zone`:
404 to NotFound, 401 to Unauthorized, everything else to Custom. -/
def mapGetZoneError (e : ReqError) : RetrieveZoneError ReqError :=
  match e with
  | ReqError.status code =>
    if code = 404 then RetrieveZoneError.NotFound
    else if code = 401 then RetrieveZoneError.Unauthorized
    else RetrieveZoneError.Custom e
  | ReqError.transport => RetrieveZoneError.Custom e

/-- The error-mapping closure of `HetznerProvider::list_zones`:
404 to NotFound, 401 or 403 to Unauthorized, everything else to
Custom. -/
def mapListZonesError (e : ReqError) : RetrieveZoneError ReqError :=
  match e with
  | ReqError.status code =>
    if code = 404 then RetrieveZoneError.NotFound
    else if code = 401 ∨ code = 403 then RetrieveZoneError.Unauthorized
    else RetrieveZoneError.Custom e
  | ReqError.transport => RetrieveZoneError.Custom e

/-- The error-mapping closure of `HetznerProvider::create_zone`:
401 to Unauthorized, 422 to InvalidDomainName, everything else to
Custom. -/
def mapCreateZoneError (e : ReqError) : CreateZoneError ReqError :=
  match e with
  | ReqError.status code =>
    if code = 401 then CreateZoneError.Unauthorized
    else if code = 422 then CreateZoneError.InvalidDomainName
    else CreateZoneError.Custom e
  | ReqError.transport => CreateZoneError.Custom e

/-- The error-mapping closure of `HetznerProvider::delete_zone`:
404 to NotFound, 401 to Unauthorized, everything else to Custom. -/
def mapDeleteZoneError (e : ReqError) : DeleteZoneError ReqError :=
  match e with
  | ReqError.status code =>
    if code = 404 then DeleteZoneError.NotFound
    else if code = 401 then DeleteZoneError.Unauthorized
    else DeleteZoneError.Custom e
  | ReqError.transport => DeleteZoneError.Custom e

/-- The error-mapping closure of `HetznerZone::list_records`:
404 to NotFound, 401 or 403 to Unauthorized, everything else to
Custom. -/
def mapListRecordsError (e : ReqError) : RetrieveRecordError ReqError :=
  match e with
  | ReqError.status code =>
    if code = 404 then RetrieveRecordError.NotFound
    else if code = 401 ∨ code = 403 then RetrieveRecordError.Unauthorized
    else RetrieveRecordError.Custom e
  | ReqError.transport => RetrieveRecordError.Custom e

/-- The error-mapping closure of `HetznerZone::get_record`:
404 to NotFound, 401 to Unauthorized, everything else to Custom. -/
def mapGetRecordError (e : ReqError) : RetrieveRecordError ReqError :=
  match e with
  | ReqError.status code =>
    if code = 404 then RetrieveRecordError.NotFound
    else if code = 401 then RetrieveRecordError.Unauthorized
    else RetrieveRecordError.Custom e
  | ReqError.transport => RetrieveRecordError.Custom e

/-- The error-mapping closure of `HetznerZone::create_record`:
401 to Unauthorized, 422 to InvalidRecord, everything else to Custom. -/
def mapCreateRecordError (e : ReqError) : CreateRecordError ReqError :=
  match e with
  | ReqError.status code =>
    if code = 401 then CreateRecordError.Unauthorized
    else if code = 422 then CreateRecordError.InvalidRecord
    else CreateRecordError.Custom e
  | ReqError.transport => CreateRecordError.Custom e

/-- The error-mapping closure of the delete step of
`HetznerZone::delete_record`: 404 to NotFound, 401 to Unauthorized,
everything else to Custom. -/
def mapDeleteRecordError (e : ReqError) : DeleteRecordError ReqError :=
  match e with
  | ReqError.status code =>
    if code = 404 then DeleteRecordError.NotFound
    else if code = 401 then DeleteRecordError.Unauthorized
    else DeleteRecordError.Custom e
  | ReqError.transport => DeleteRecordError.Custom e

/-- `api::Record::into_generic` of src/hetzner/mod.rs: decode through the
codec, substituting the default TTL when the wire record has none. -/
def ApiRecord.into_generic (r : ApiRecord) (default_ttl : Nat) : Record :=
  { id := r.id
    host := r.name
    data := RecordData.from_raw r.typ r.value
    ttl := r.ttl.getD default_ttl }

/-- `HetznerProvider::get_zone`. -/
def get_zone (c : ApiClient) (zoneId : String) :
    Except (RetrieveZoneError ReqError) HetznerZone × List ApiCall :=
  match c.retrieveZone zoneId with
  | Except.ok resp => (Except.ok ⟨resp.zone⟩, [ApiCall.retrieveZone zoneId])
  | Except.error e => (Except.error (mapGetZoneError e), [ApiCall.retrieveZone zoneId])

/-- The `loop` body of `HetznerProvider::list_zones`, with fuel: `none`
means the loop ran out of fuel before terminating. -/
def list_zonesLoop (c : ApiClient) :
    Nat → Nat → Option Nat → List HetznerZone →
    Option (Except (RetrieveZoneError ReqError) (List HetznerZone) × List ApiCall)
  | 0, _, _, _ => none
  | fuel + 1, page, total, zones =>
    let call := ApiCall.retrieveZones page 100
    match c.retrieveZones page 100 with
    | Except.error e =>
      match mapListZonesError e with
      | RetrieveZoneError.NotFound => some (Except.ok zones, [call])
      | err => some (Except.error err, [call])
    | Except.ok resp =>
      let total := if total.isNone then some resp.meta.pagination.total_entries else total
      let zones := zones ++ resp.zones.map (fun zone => HetznerZone.mk zone)
      if (match total with | some t => zones.length == t | none => false : Bool) then
        some (Except.ok zones, [call])
      else
        match list_zonesLoop c fuel (page + 1) total zones with
        | none => none
        | some (res, calls) => some (res, call :: calls)

/-- `HetznerProvider::list_zones`: the loop started at page 1 with no
recorded total and nothing accumulated. -/
def list_zones (c : ApiClient) (fuel : Nat) :
    Option (Except (RetrieveZoneError ReqError) (List HetznerZone) × List ApiCall) :=
  list_zonesLoop c fuel 1 none []

/-- `HetznerProvider::create_zone`. -/
def create_zone (c : ApiClient) (domain : String) :
    Except (CreateZoneError ReqError) HetznerZone × List ApiCall :=
  match c.createZone domain with
  | Except.ok resp => (Except.ok ⟨resp.zone⟩, [ApiCall.createZone domain])
  | Except.error e => (Except.error (mapCreateZoneError e), [ApiCall.createZone domain])

/-- `HetznerProvider::delete_zone`. -/
def delete_zone (c : ApiClient) (zoneId : String) :
    Except (DeleteZoneError ReqError) Unit × List ApiCall :=
  match c.deleteZone zoneId with
  | Except.ok _ => (Except.ok (), [ApiCall.deleteZone zoneId])
  | Except.error e => (Except.error (mapDeleteZoneError e), [ApiCall.deleteZone zoneId])

/-- The `loop` body of `HetznerZone::list_records`, with fuel. -/
def list_recordsLoop (c : ApiClient) (z : HetznerZone) :
    Nat → Nat → Option Nat → List Record →
    Option (Except (RetrieveRecordError ReqError) (List Record) × List ApiCall)
  | 0, _, _, _ => none
  | fuel + 1, page, total, records =>
    let call := ApiCall.retrieveRecords z.repr.id page 100
    match c.retrieveRecords z.repr.id page 100 with
    | Except.error e =>
      match mapListRecordsError e with
      | RetrieveRecordError.NotFound => some (Except.ok records, [call])
      | err => some (Except.error err, [call])
    | Except.ok resp =>
      let total := if total.isNone then some resp.meta.pagination.total_entries else total
      let records := records ++ resp.records.map (fun r => r.into_generic z.repr.ttl)
      if (match total with | some t => records.length == t | none => false : Bool) then
        some (Except.ok records, [call])
      else
        match list_recordsLoop c z fuel (page + 1) total records with
        | none => none
        | some (res, calls) => some (res, call :: calls)

/-- `HetznerZone::list_records`. -/
def HetznerZone.list_records (c : ApiClient) (z : HetznerZone) (fuel : Nat) :
    Option (Except (RetrieveRecordError ReqError) (List Record) × List ApiCall) :=
  list_recordsLoop c z fuel 1 none []

/-- `HetznerZone::get_record`: the fetched record is rejected as
NotFound when its `zone_id` differs from this zone. -/
def HetznerZone.get_record (c : ApiClient) (z : HetznerZone) (recordId : String) :
    Except (RetrieveRecordError ReqError) Record × List ApiCall :=
  match c.retrieveRecord recordId with
  | Except.error e =>
    (Except.error (mapGetRecordError e), [ApiCall.retrieveRecord recordId])
  | Except.ok resp =>
    if resp.record.zone_id ≠ z.repr.id then
      (Except.error RetrieveRecordError.NotFound, [ApiCall.retrieveRecord recordId])
    else
      (Except.ok (resp.record.into_generic z.repr.ttl), [ApiCall.retrieveRecord recordId])

/-- `HetznerZone::create_record`: rejects unsupported types before any
remote call; omits the TTL from the request when it equals the zone
default. -/
def HetznerZone.create_record (c : ApiClient) (z : HetznerZone) (host : String)
    (data : RecordData) (ttl : Nat) :
    Except (CreateRecordError ReqError) Record × List ApiCall :=
  let typ := data.get_type
  if ¬ (SUPPORTED_RECORD_TYPES.any (fun r => r = typ)) then
    (Except.error CreateRecordError.UnsupportedType, [])
  else
    let opt_ttl := if ttl ≠ z.repr.ttl then some ttl else none
    let call := ApiCall.createRecord z.repr.id host data.get_type data.get_value opt_ttl
    match c.createRecord z.repr.id host data.get_type data.get_value opt_ttl with
    | Except.error e => (Except.error (mapCreateRecordError e), [call])
    | Except.ok resp => (Except.ok (resp.record.into_generic z.repr.ttl), [call])

/-- `HetznerZone::delete_record`: fetches the record through
`get_record` (scoped to this zone) first, then issues the delete. -/
def HetznerZone.delete_record (c : ApiClient) (z : HetznerZone) (recordId : String) :
    Except (DeleteRecordError ReqError) Unit × List ApiCall :=
  match HetznerZone.get_record c z recordId with
  | (Except.error e, getCalls) =>
    (Except.error
      (match e with
       | RetrieveRecordError.Unauthorized => DeleteRecordError.Unauthorized
       | RetrieveRecordError.NotFound => DeleteRecordError.NotFound
       | RetrieveRecordError.Custom rerr => DeleteRecordError.Custom rerr), getCalls)
  | (Except.ok _, getCalls) =>
    let call := ApiCall.deleteRecord recordId
    match c.deleteRecord recordId with
    | Except.ok _ => (Except.ok (), getCalls ++ [call])
    | Except.error e => (Except.error (mapDeleteRecordError e), getCalls ++ [call])

/-! ## C1: the round-trip law of the codec -/

/-- C1 (code bug evidence): the round-trip law
`from_raw (get_type x) (get_value x) = x` fails for every value the
codec produced from a well-formed `AAAA` input, because the `AAAA` arm
of `get_type` returns the string `"A"`.  At the concrete well-formed
input `("AAAA", "::1")`: `from_raw` produces `AAAA ::1`, `get_type` of
that value is `"A"`, and re-running `from_raw` on the projected pair
yields `Other {typ := "A", value := "::1"}`, which differs from the
original value. -/
theorem from_raw_get_type_aaaa_roundtrip_fails :
    RecordData.from_raw "AAAA" "::1" = RecordData.AAAA ⟨0, 0, 0, 0, 0, 0, 0, 1⟩ ∧
    (RecordData.AAAA ⟨0, 0, 0, 0, 0, 0, 0, 1⟩).get_type = "A" ∧
    RecordData.from_raw (RecordData.AAAA ⟨0, 0, 0, 0, 0, 0, 0, 1⟩).get_type
        (RecordData.AAAA ⟨0, 0, 0, 0, 0, 0, 0, 1⟩).get_value =
      RecordData.Other "A" "::1" ∧
    RecordData.Other "A" "::1" ≠ RecordData.AAAA ⟨0, 0, 0, 0, 0, 0, 0, 1⟩ := by
  decide

/-! ## C2: the token shapes accepted by the MX and SRV arms -/

/-- C2 (counterexample): the claim that an `MX` (resp. `SRV`) value must
consist of exactly two (resp. four) whitespace-separated tokens is false:
the parser only consumes the first two (resp. four) tokens and ignores
the rest, so a three-token `MX` value and a five-token `SRV` value do
not fall back to `Other`. -/
theorem from_raw_mx_extra_tokens_counterexample :
    RecordData.from_raw "MX" "10 a b" = RecordData.MX 10 "a" ∧
    RecordData.from_raw "MX" "10 a b" ≠ RecordData.Other "MX" "10 a b" ∧
    (splitWhitespace "10 a b").length = 3 ∧
    RecordData.from_raw "SRV" "1 2 3 t u" = RecordData.SRV 1 2 3 "t" ∧
    RecordData.from_raw "SRV" "1 2 3 t u" ≠ RecordData.Other "SRV" "1 2 3 t u" ∧
    (splitWhitespace "1 2 3 t u").length = 5 := by
  decide

/-- The amended MX shape: at least two whitespace-separated tokens, the
first of which parses as an integer in `0..=65535`. -/
def mxShape (v : String) : Prop :=
  2 ≤ (splitWhitespace v).length ∧ (parseU16 ((splitWhitespace v).headD "")).isSome

/-- The amended SRV shape: at least four whitespace-separated tokens,
the first three of which parse as integers in `0..=65535`. -/
def srvShape (v : String) : Prop :=
  4 ≤ (splitWhitespace v).length ∧
  (parseU16 ((splitWhitespace v).getD 0 "")).isSome ∧
  (parseU16 ((splitWhitespace v).getD 1 "")).isSome ∧
  (parseU16 ((splitWhitespace v).getD 2 "")).isSome

/-- C2 (amended): `from_raw "MX" v` returns an `MX` variant exactly when
`v` has at least two whitespace-separated tokens whose first parses as
an integer in `0..=65535` (tokens beyond the second are ignored), and
`from_raw "SRV" v` returns an `SRV` variant exactly when `v` has at
least four tokens whose first three parse as such integers (tokens
beyond the fourth are ignored); in every other case the value falls
back to `Other` with the original strings verbatim. -/
theorem from_raw_mx_srv_token_characterization (v : String) :
    ((∃ p s, RecordData.from_raw "MX" v = RecordData.MX p s) ↔ mxShape v) ∧
    (RecordData.from_raw "MX" v = RecordData.Other "MX" v ↔ ¬ mxShape v) ∧
    ((∃ p w pt t, RecordData.from_raw "SRV" v = RecordData.SRV p w pt t) ↔ srvShape v) ∧
    (RecordData.from_raw "SRV" v = RecordData.Other "SRV" v ↔ ¬ srvShape v) := by
  unfold mxShape srvShape
  rcases htoks : splitWhitespace v with - | ⟨t0, - | ⟨t1, - | ⟨t2, - | ⟨t3, rest⟩⟩⟩⟩ <;>
    simp [RecordData.from_raw, htoks]
  case cons.nil =>
    rcases hp0 : parseU16 t0 with - | p0 <;> simp [hp0]
  case cons.cons.nil =>
    rcases hp0 : parseU16 t0 with - | p0 <;> simp [hp0]
  case cons.cons.cons.cons =>
    rcases hp0 : parseU16 t0 with - | p0 <;> simp [hp0] <;>
      rcases hp1 : parseU16 t1 with - | p1 <;> simp [hp1] <;>
        rcases hp2 : parseU16 t2 with - | p2 <;> simp [hp2]

/-! ## C9: zone scoping of `get_record` -/

/-- C9: when the remote fetch of a record succeeds, `get_record` still
answers `NotFound` whenever the fetched record's `zone_id` differs from
the id of the zone handle, and returns the decoded record exactly when
the two ids agree. -/
theorem get_record_zone_scoping (c : ApiClient) (z : HetznerZone) (recordId : String)
    (resp : RecordResponse) (h : c.retrieveRecord recordId = Except.ok resp) :
    (resp.record.zone_id ≠ z.repr.id →
      HetznerZone.get_record c z recordId =
        (Except.error RetrieveRecordError.NotFound, [ApiCall.retrieveRecord recordId])) ∧
    (resp.record.zone_id = z.repr.id →
      HetznerZone.get_record c z recordId =
        (Except.ok (resp.record.into_generic z.repr.ttl), [ApiCall.retrieveRecord recordId])) := by
  unfold HetznerZone.get_record
  rw [h]
  constructor
  · intro hne
    simp [hne]
  · intro heq
    simp [heq]

/-- A zone handle used by the concrete witnesses below. -/
def wZone : ApiZone := ⟨"zone1", "example.com", ZoneStatus.Verified, 3600⟩

/-- A wire record that belongs to a different zone than `wZone`. -/
def wForeignRecord : ApiRecord := ⟨"rec1", "www", none, "A", "1.2.3.4", "zone2"⟩

/-- A stub transport whose record endpoints serve `wForeignRecord`. -/
def wClient : ApiClient where
  retrieveZone := fun _ => Except.error (ReqError.status 404)
  retrieveZones := fun _ _ => Except.error (ReqError.status 404)
  createZone := fun _ => Except.error ReqError.transport
  deleteZone := fun _ => Except.ok ()
  retrieveRecords := fun _ _ _ => Except.error (ReqError.status 404)
  retrieveRecord := fun _ => Except.ok ⟨wForeignRecord⟩
  createRecord := fun _ _ _ _ _ => Except.ok ⟨wForeignRecord⟩
  deleteRecord := fun _ => Except.ok ()

/-- C9 witness: the stub serves a record of zone `"zone2"`, so
`get_record` on the `"zone1"` handle answers `NotFound`. -/
theorem get_record_zone_scoping_witness :
    HetznerZone.get_record wClient ⟨wZone⟩ "rec1" =
      (Except.error RetrieveRecordError.NotFound, [ApiCall.retrieveRecord "rec1"]) :=
  (get_record_zone_scoping wClient ⟨wZone⟩ "rec1" ⟨wForeignRecord⟩ rfl).1 (by decide)

/-! ## C7: zone scoping of `delete_record` -/

/-- C7: `delete_record` of a record owned by a different zone answers
`NotFound` and never issues the remote delete; and in every case the
call log starts with the zone-scoped `get_record` fetch, with the remote
delete issued only after it. -/
theorem delete_record_zone_scoped (c : ApiClient) (z : HetznerZone) (recordId : String)
    (resp : RecordResponse) :
    (c.retrieveRecord recordId = Except.ok resp → resp.record.zone_id ≠ z.repr.id →
      HetznerZone.delete_record c z recordId =
        (Except.error DeleteRecordError.NotFound, [ApiCall.retrieveRecord recordId])) ∧
    ((HetznerZone.delete_record c z recordId).2 = [ApiCall.retrieveRecord recordId] ∨
      (HetznerZone.delete_record c z recordId).2 =
        [ApiCall.retrieveRecord recordId, ApiCall.deleteRecord recordId]) := by
  constructor
  · intro h hne
    unfold HetznerZone.delete_record HetznerZone.get_record
    rw [h]
    simp [hne]
  · unfold HetznerZone.delete_record HetznerZone.get_record
    cases hr : c.retrieveRecord recordId with
    | error e => simp
    | ok resp =>
      by_cases hz : resp.record.zone_id = z.repr.id
      · simp [hz]
        cases hd : c.deleteRecord recordId with
        | ok u => simp
        | error e => simp
      · simp [hz]

/-- C7 witness: deleting the foreign record `"rec1"` through the
`"zone1"` handle fails with `NotFound` after the lone fetch call. -/
theorem delete_record_zone_scoped_witness :
    HetznerZone.delete_record wClient ⟨wZone⟩ "rec1" =
      (Except.error DeleteRecordError.NotFound, [ApiCall.retrieveRecord "rec1"]) :=
  (delete_record_zone_scoped wClient ⟨wZone⟩ "rec1" ⟨wForeignRecord⟩).1 rfl (by decide)

/-! ## C6: local rejection of unsupported record types -/

/-- C6: `create_record` with a record type outside
`SUPPORTED_RECORD_TYPES` answers `UnsupportedType` and issues no remote
call at all (the call log is empty). -/
theorem create_record_unsupported_no_remote_call (c : ApiClient) (z : HetznerZone)
    (host : String) (data : RecordData) (ttl : Nat)
    (h : SUPPORTED_RECORD_TYPES.any (fun r => r = data.get_type) = false) :
    HetznerZone.create_record c z host data ttl =
      (Except.error CreateRecordError.UnsupportedType, []) := by
  unfold HetznerZone.create_record
  simp [h]

/-- C6 witness: an `Other` record with type string `"SPF"` is rejected
locally with an empty call log. -/
theorem create_record_unsupported_no_remote_call_witness :
    HetznerZone.create_record wClient ⟨wZone⟩ "www" (RecordData.Other "SPF" "v=spf1") 3600 =
      (Except.error CreateRecordError.UnsupportedType, []) :=
  create_record_unsupported_no_remote_call wClient ⟨wZone⟩ "www"
    (RecordData.Other "SPF" "v=spf1") 3600 (by decide)

/-! ## C8: the TTL of a decoded record is always resolved -/

/-- Every record accumulated by a successful run of the `list_records`
loop is the image of some wire record under `into_generic` at the zone
default TTL. -/
theorem list_recordsLoop_ok_mem (c : ApiClient) (z : HetznerZone) :
    ∀ fuel page total acc res log,
      list_recordsLoop c z fuel page total acc = some (Except.ok res, log) →
      (∀ r ∈ acc, ∃ w : ApiRecord, r = w.into_generic z.repr.ttl) →
      ∀ r ∈ res, ∃ w : ApiRecord, r = w.into_generic z.repr.ttl := by
  intro fuel
  induction fuel with
  | zero =>
    intro page total acc res log h hacc
    simp [list_recordsLoop] at h
  | succ n ih =>
    intro page total acc res log h hacc
    simp only [list_recordsLoop] at h
    rcases hr : c.retrieveRecords z.repr.id page 100 with e | resp
    · simp only [hr] at h
      cases hm : mapListRecordsError e with
      | NotFound =>
        simp only [hm, Option.some.injEq, Prod.mk.injEq, Except.ok.injEq] at h
        obtain ⟨hres, -⟩ := h
        subst hres
        exact hacc
      | Unauthorized => simp [hm] at h
      | Custom e' => simp [hm] at h
    · simp only [hr] at h
      set total' := if total.isNone then some resp.meta.pagination.total_entries else total
        with htot'
      split at h
      · simp only [Option.some.injEq, Prod.mk.injEq, Except.ok.injEq] at h
        obtain ⟨hres, -⟩ := h
        subst hres
        intro r hrmem
        rcases List.mem_append.mp hrmem with hin | hin
        · exact hacc r hin
        · obtain ⟨w, -, hw⟩ := List.mem_map.mp hin
          exact ⟨w, hw.symm⟩
      · cases hrec : list_recordsLoop c z n (page + 1) total'
            (acc ++ resp.records.map (fun r => r.into_generic z.repr.ttl)) with
        | none =>
          simp only [hrec] at h
          exact Option.noConfusion h
        | some val =>
          simp only [hrec] at h
          obtain ⟨res', calls'⟩ := val
          simp only [Option.some.injEq, Prod.mk.injEq] at h
          obtain ⟨hres, -⟩ := h
          subst hres
          refine ih (page + 1) total' _ res calls' hrec ?_
          intro r hrmem
          rcases List.mem_append.mp hrmem with hin | hin
          · exact hacc r hin
          · obtain ⟨w, -, hw⟩ := List.mem_map.mp hin
            exact ⟨w, hw.symm⟩

/-- C8: `into_generic` resolves the TTL to the wire TTL when present and
to the supplied default otherwise; `get_record` and `create_record`
decode the fetched wire record with the zone default TTL; and every
record listed by `list_records` is such a decoding. -/
theorem record_ttl_always_resolved (c : ApiClient) (z : HetznerZone)
    (recordId host : String) (data : RecordData) (ttl : Nat)
    (wire : ApiRecord) (default_ttl : Nat) (resp : RecordResponse) (fuel : Nat) :
    ((wire.into_generic default_ttl).ttl =
      match wire.ttl with | some t => t | none => default_ttl) ∧
    (c.retrieveRecord recordId = Except.ok resp → resp.record.zone_id = z.repr.id →
      (HetznerZone.get_record c z recordId).1 =
        Except.ok (resp.record.into_generic z.repr.ttl)) ∧
    (SUPPORTED_RECORD_TYPES.any (fun r => r = data.get_type) = true →
      c.createRecord z.repr.id host data.get_type data.get_value
          (if ttl ≠ z.repr.ttl then some ttl else none) = Except.ok resp →
      (HetznerZone.create_record c z host data ttl).1 =
        Except.ok (resp.record.into_generic z.repr.ttl)) ∧
    (∀ res log, HetznerZone.list_records c z fuel = some (Except.ok res, log) →
      ∀ rec ∈ res, ∃ w : ApiRecord, rec = w.into_generic z.repr.ttl) := by
  refine ⟨?_, ?_, ?_, ?_⟩
  · cases h : wire.ttl <;> simp [ApiRecord.into_generic, h]
  · intro h hz
    unfold HetznerZone.get_record
    rw [h]
    simp [hz]
  · intro hsupp hcr
    unfold HetznerZone.create_record
    simp only [hsupp]
    rw [hcr]
    simp
  · intro res log h
    exact list_recordsLoop_ok_mem c z fuel 1 none [] res log h (by simp)

/-- A stub transport whose record endpoints serve a TTL-less wire record
that belongs to `wZone`. -/
def wMatchClient : ApiClient where
  retrieveZone := fun _ => Except.error (ReqError.status 404)
  retrieveZones := fun _ _ => Except.error (ReqError.status 404)
  createZone := fun _ => Except.error ReqError.transport
  deleteZone := fun _ => Except.ok ()
  retrieveRecords := fun _ _ _ => Except.error (ReqError.status 404)
  retrieveRecord := fun _ => Except.ok ⟨⟨"rec1", "www", none, "A", "1.2.3.4", "zone1"⟩⟩
  createRecord := fun _ _ _ _ _ => Except.ok ⟨⟨"rec1", "www", none, "A", "1.2.3.4", "zone1"⟩⟩
  deleteRecord := fun _ => Except.ok ()

/-- C8 witness: the fetched wire record has no TTL of its own, so the
decoded record carries the zone default `3600`. -/
theorem record_ttl_always_resolved_witness :
    (HetznerZone.get_record wMatchClient ⟨wZone⟩ "rec1").1 =
      Except.ok (ApiRecord.into_generic ⟨"rec1", "www", none, "A", "1.2.3.4", "zone1"⟩ 3600) := by
  exact (record_ttl_always_resolved wMatchClient ⟨wZone⟩ "rec1" "www" (RecordData.CNAME "t") 60
    ⟨"r", "h", none, "A", "1.2.3.4", "zone1"⟩ 0 ⟨⟨"rec1", "www", none, "A", "1.2.3.4", "zone1"⟩⟩
    1).2.1 rfl (by rfl)

/-! ## C3: translation of HTTP status failures -/

/-- A stub transport that fails every remote call with the same error,
mirroring the stubbed-transport scenario of the specification. -/
def errClient (e : ReqError) : ApiClient where
  retrieveZone := fun _ => Except.error e
  retrieveZones := fun _ _ => Except.error e
  createZone := fun _ => Except.error e
  deleteZone := fun _ => Except.error e
  retrieveRecords := fun _ _ _ => Except.error e
  retrieveRecord := fun _ => Except.error e
  createRecord := fun _ _ _ _ _ => Except.error e
  deleteRecord := fun _ => Except.error e

/-- C3 (counterexample): a 403 on `get_zone` is translated to `Custom`,
not to `Unauthorized` as the claim states; only the two list operations
map 403 to `Unauthorized`. -/
theorem get_zone_403_custom_counterexample :
    (get_zone (errClient (ReqError.status 403)) "zone1").1 =
      Except.error (RetrieveZoneError.Custom (ReqError.status 403)) ∧
    (get_zone (errClient (ReqError.status 403)) "zone1").1 ≠
      Except.error RetrieveZoneError.Unauthorized := by
  constructor
  · rfl
  · intro h
    simp [get_zone, errClient, mapGetZoneError] at h

/-- C3 (amended): against a stub transport failing with a given HTTP
status, 404 maps to NotFound on the retrieval and deletion capabilities
(with the two list operations treating it as end-of-collection and
succeeding with the accumulation so far), 401 maps to Unauthorized on
every capability, 403 maps to Unauthorized only on `list_zones` and
`list_records` and to `Custom` elsewhere, 422 maps to
`InvalidDomainName` on `create_zone` and to `InvalidRecord` on
`create_record` and to `Custom` elsewhere, and every other status as
well as every non-HTTP transport failure maps to `Custom` wrapping the
underlying error.  `delete_record` fails through its leading
`get_record` (so 404/401 there, and no delete call is issued). -/
theorem status_code_mapping_amended (code fuel : Nat) :
    (get_zone (errClient (ReqError.status code)) "zone1").1 =
      Except.error (if code = 404 then RetrieveZoneError.NotFound
        else if code = 401 then RetrieveZoneError.Unauthorized
        else RetrieveZoneError.Custom (ReqError.status code)) ∧
    list_zones (errClient (ReqError.status code)) (fuel + 1) =
      some ((if code = 404 then Except.ok []
        else if code = 401 ∨ code = 403 then Except.error RetrieveZoneError.Unauthorized
        else Except.error (RetrieveZoneError.Custom (ReqError.status code))),
        [ApiCall.retrieveZones 1 100]) ∧
    (create_zone (errClient (ReqError.status code)) "example.com").1 =
      Except.error (if code = 401 then CreateZoneError.Unauthorized
        else if code = 422 then CreateZoneError.InvalidDomainName
        else CreateZoneError.Custom (ReqError.status code)) ∧
    (delete_zone (errClient (ReqError.status code)) "zone1").1 =
      Except.error (if code = 404 then DeleteZoneError.NotFound
        else if code = 401 then DeleteZoneError.Unauthorized
        else DeleteZoneError.Custom (ReqError.status code)) ∧
    (HetznerZone.get_record (errClient (ReqError.status code)) ⟨wZone⟩ "rec1").1 =
      Except.error (if code = 404 then RetrieveRecordError.NotFound
        else if code = 401 then RetrieveRecordError.Unauthorized
        else RetrieveRecordError.Custom (ReqError.status code)) ∧
    HetznerZone.list_records (errClient (ReqError.status code)) ⟨wZone⟩ (fuel + 1) =
      some ((if code = 404 then Except.ok []
        else if code = 401 ∨ code = 403 then Except.error RetrieveRecordError.Unauthorized
        else Except.error (RetrieveRecordError.Custom (ReqError.status code))),
        [ApiCall.retrieveRecords "zone1" 1 100]) ∧
    (HetznerZone.create_record (errClient (ReqError.status code)) ⟨wZone⟩ "www"
        (RecordData.CNAME "target") 60).1 =
      Except.error (if code = 401 then CreateRecordError.Unauthorized
        else if code = 422 then CreateRecordError.InvalidRecord
        else CreateRecordError.Custom (ReqError.status code)) ∧
    HetznerZone.delete_record (errClient (ReqError.status code)) ⟨wZone⟩ "rec1" =
      (Except.error (if code = 404 then DeleteRecordError.NotFound
        else if code = 401 then DeleteRecordError.Unauthorized
        else DeleteRecordError.Custom (ReqError.status code)),
        [ApiCall.retrieveRecord "rec1"]) ∧
    (get_zone (errClient ReqError.transport) "zone1").1 =
      Except.error (RetrieveZoneError.Custom ReqError.transport) ∧
    list_zones (errClient ReqError.transport) (fuel + 1) =
      some (Except.error (RetrieveZoneError.Custom ReqError.transport),
        [ApiCall.retrieveZones 1 100]) ∧
    (create_zone (errClient ReqError.transport) "example.com").1 =
      Except.error (CreateZoneError.Custom ReqError.transport) ∧
    (delete_zone (errClient ReqError.transport) "zone1").1 =
      Except.error (DeleteZoneError.Custom ReqError.transport) ∧
    (HetznerZone.get_record (errClient ReqError.transport) ⟨wZone⟩ "rec1").1 =
      Except.error (RetrieveRecordError.Custom ReqError.transport) ∧
    HetznerZone.list_records (errClient ReqError.transport) ⟨wZone⟩ (fuel + 1) =
      some (Except.error (RetrieveRecordError.Custom ReqError.transport),
        [ApiCall.retrieveRecords "zone1" 1 100]) ∧
    (HetznerZone.create_record (errClient ReqError.transport) ⟨wZone⟩ "www"
        (RecordData.CNAME "target") 60).1 =
      Except.error (CreateRecordError.Custom ReqError.transport) ∧
    (HetznerZone.delete_record (errClient ReqError.transport) ⟨wZone⟩ "rec1").1 =
      Except.error (DeleteRecordError.Custom ReqError.transport) := by
  by_cases h404 : code = 404
  · subst h404
    refine ⟨by rfl, by rfl, by rfl, by rfl, by rfl, by rfl, by rfl, by rfl,
      by rfl, by rfl, by rfl, by rfl, by rfl, by rfl, by rfl, by rfl⟩
  · by_cases h401 : code = 401
    · subst h401
      refine ⟨by rfl, by rfl, by rfl, by rfl, by rfl, by rfl, by rfl, by rfl,
        by rfl, by rfl, by rfl, by rfl, by rfl, by rfl, by rfl, by rfl⟩
    · by_cases h403 : code = 403
      · subst h403
        refine ⟨by rfl, by rfl, by rfl, by rfl, by rfl, by rfl, by rfl, by rfl,
          by rfl, by rfl, by rfl, by rfl, by rfl, by rfl, by rfl, by rfl⟩
      · by_cases h422 : code = 422
        · subst h422
          refine ⟨by rfl, by rfl, by rfl, by rfl, by rfl, by rfl, by rfl, by rfl,
            by rfl, by rfl, by rfl, by rfl, by rfl, by rfl, by rfl, by rfl⟩
        · have h4943 : ¬ (code = 401 ∨ code = 403) := by
            intro h
            rcases h with h | h
            · exact h401 h
            · exact h403 h
          simp [get_zone, list_zones, list_zonesLoop, create_zone, delete_zone,
            HetznerZone.get_record, HetznerZone.list_records, list_recordsLoop,
            HetznerZone.create_record, HetznerZone.delete_record, errClient,
            mapGetZoneError, mapListZonesError, mapCreateZoneError, mapDeleteZoneError,
            mapGetRecordError, mapListRecordsError, mapCreateRecordError,
            mapDeleteRecordError, h404, h401, h403, h422, h4943, wZone,
            SUPPORTED_RECORD_TYPES, RecordData.get_type]

/-! ## C5: a NotFound page ends pagination successfully -/

/-- C5: at any point of the pagination loop, a page fetch failing with
NotFound (HTTP 404) makes `list_zones` / `list_records` return `Ok` with
exactly the items accumulated so far — the empty list when it happens on
the first page — while any other failure is returned immediately as the
error, discarding the partial accumulation. -/
theorem pagination_notfound_truncates
    (c : ApiClient) (z : HetznerZone) (page fuel : Nat) (total : Option Nat)
    (accZ : List HetznerZone) (accR : List Record) (e : ReqError) :
    (c.retrieveZones page 100 = Except.error e →
      (mapListZonesError e = RetrieveZoneError.NotFound →
        list_zonesLoop c (fuel + 1) page total accZ =
          some (Except.ok accZ, [ApiCall.retrieveZones page 100])) ∧
      (mapListZonesError e ≠ RetrieveZoneError.NotFound →
        list_zonesLoop c (fuel + 1) page total accZ =
          some (Except.error (mapListZonesError e), [ApiCall.retrieveZones page 100]))) ∧
    (c.retrieveRecords z.repr.id page 100 = Except.error e →
      (mapListRecordsError e = RetrieveRecordError.NotFound →
        list_recordsLoop c z (fuel + 1) page total accR =
          some (Except.ok accR, [ApiCall.retrieveRecords z.repr.id page 100])) ∧
      (mapListRecordsError e ≠ RetrieveRecordError.NotFound →
        list_recordsLoop c z (fuel + 1) page total accR =
          some (Except.error (mapListRecordsError e),
            [ApiCall.retrieveRecords z.repr.id page 100]))) ∧
    (c.retrieveZones 1 100 = Except.error (ReqError.status 404) →
      list_zones c (fuel + 1) = some (Except.ok [], [ApiCall.retrieveZones 1 100])) ∧
    (c.retrieveRecords z.repr.id 1 100 = Except.error (ReqError.status 404) →
      HetznerZone.list_records c z (fuel + 1) =
        some (Except.ok [], [ApiCall.retrieveRecords z.repr.id 1 100])) := by
  refine ⟨?_, ?_, ?_, ?_⟩
  · intro h
    constructor
    · intro hm
      simp only [list_zonesLoop, h, hm]
    · intro hm
      cases hm2 : mapListZonesError e with
      | NotFound => exact absurd hm2 hm
      | Unauthorized => simp only [list_zonesLoop, h, hm2]
      | Custom e' => simp only [list_zonesLoop, h, hm2]
  · intro h
    constructor
    · intro hm
      simp only [list_recordsLoop, h, hm]
    · intro hm
      cases hm2 : mapListRecordsError e with
      | NotFound => exact absurd hm2 hm
      | Unauthorized => simp only [list_recordsLoop, h, hm2]
      | Custom e' => simp only [list_recordsLoop, h, hm2]
  · intro h
    simp only [list_zones, list_zonesLoop, h]
    rfl
  · intro h
    simp only [HetznerZone.list_records, list_recordsLoop, h]
    rfl

/-- C5 witness: a stub failing every page with 404 makes `list_zones`
succeed with the empty list, while a stub failing with 500 makes the
loop return the `Custom`-wrapped error. -/
theorem pagination_notfound_truncates_witness :
    list_zones (errClient (ReqError.status 404)) 5 =
      some (Except.ok [], [ApiCall.retrieveZones 1 100]) ∧
    list_zonesLoop (errClient (ReqError.status 500)) 5 1 none [] =
      some (Except.error (RetrieveZoneError.Custom (ReqError.status 500)),
        [ApiCall.retrieveZones 1 100]) :=
  ⟨(pagination_notfound_truncates (errClient (ReqError.status 404)) ⟨wZone⟩ 1 4 none
      [] [] (ReqError.status 404)).2.2.1 rfl,
   ((pagination_notfound_truncates (errClient (ReqError.status 500)) ⟨wZone⟩ 1 4 none
      [] [] (ReqError.status 500)).1 rfl).2 (by decide)⟩

/-! ## C4: three-page pagination run -/

/-- C4: when the first page reports 250 total entries and pages 1, 2, 3
deliver 100, 100 and 50 items with every fetch succeeding, the
aggregator issues exactly three page fetches, for pages 1, 2, 3 in
order, and returns `Ok` with all 250 items in delivery order — for
`list_zones` and `list_records` alike. -/
theorem pagination_three_pages (c : ApiClient) (z : HetznerZone)
    (r1 r2 r3 : ZonesResponse) (q1 q2 q3 : RecordsResponse) (fuel : Nat)
    (hz1 : c.retrieveZones 1 100 = Except.ok r1)
    (hz2 : c.retrieveZones 2 100 = Except.ok r2)
    (hz3 : c.retrieveZones 3 100 = Except.ok r3)
    (hzt : r1.meta.pagination.total_entries = 250)
    (hzl1 : r1.zones.length = 100) (hzl2 : r2.zones.length = 100)
    (hzl3 : r3.zones.length = 50)
    (hq1 : c.retrieveRecords z.repr.id 1 100 = Except.ok q1)
    (hq2 : c.retrieveRecords z.repr.id 2 100 = Except.ok q2)
    (hq3 : c.retrieveRecords z.repr.id 3 100 = Except.ok q3)
    (hqt : q1.meta.pagination.total_entries = 250)
    (hql1 : q1.records.length = 100) (hql2 : q2.records.length = 100)
    (hql3 : q3.records.length = 50) :
    (list_zones c (fuel + 3) =
      some (Except.ok ((r1.zones ++ r2.zones ++ r3.zones).map (fun zone => HetznerZone.mk zone)),
        [ApiCall.retrieveZones 1 100, ApiCall.retrieveZones 2 100,
          ApiCall.retrieveZones 3 100])) ∧
    ((r1.zones ++ r2.zones ++ r3.zones).map (fun zone => HetznerZone.mk zone)).length = 250 ∧
    (HetznerZone.list_records c z (fuel + 3) =
      some (Except.ok
          ((q1.records ++ q2.records ++ q3.records).map (fun r => r.into_generic z.repr.ttl)),
        [ApiCall.retrieveRecords z.repr.id 1 100, ApiCall.retrieveRecords z.repr.id 2 100,
          ApiCall.retrieveRecords z.repr.id 3 100])) ∧
    ((q1.records ++ q2.records ++ q3.records).map (fun r => r.into_generic z.repr.ttl)).length
      = 250 := by
  refine ⟨?_, ?_, ?_, ?_⟩
  · simp [list_zones, list_zonesLoop, hz1, hz2, hz3, hzt, hzl1, hzl2, hzl3]
  · simp [hzl1, hzl2, hzl3]
  · simp [HetznerZone.list_records, list_recordsLoop, hq1, hq2, hq3, hqt, hql1, hql2, hql3]
  · simp [hql1, hql2, hql3]

/-- A zone of the simulated 250-zone remote. -/
def pageZone (i : Nat) : ApiZone := ⟨toString i, "example.com", ZoneStatus.Verified, 3600⟩

/-- A record of the simulated 250-record remote. -/
def pageRecord (i : Nat) : ApiRecord := ⟨toString i, "www", some 300, "TXT", "v", "zone1"⟩

/-- The zones served on one page of the simulated remote: 100 per page,
50 on page 3. -/
def zonesPage (page : Nat) : List ApiZone :=
  (List.range (if page = 3 then 50 else 100)).map (fun i => pageZone (100 * (page - 1) + i))

/-- The records served on one page of the simulated remote. -/
def recordsPage (page : Nat) : List ApiRecord :=
  (List.range (if page = 3 then 50 else 100)).map (fun i => pageRecord (100 * (page - 1) + i))

/-- A stub transport simulating a remote with 250 entries at 100 per
page. -/
def pagedClient : ApiClient where
  retrieveZone := fun _ => Except.error (ReqError.status 404)
  retrieveZones := fun page _ => Except.ok ⟨⟨⟨3, page, 100, 250⟩⟩, zonesPage page⟩
  createZone := fun _ => Except.error ReqError.transport
  deleteZone := fun _ => Except.ok ()
  retrieveRecords := fun _ page _ => Except.ok ⟨⟨⟨3, page, 100, 250⟩⟩, recordsPage page⟩
  retrieveRecord := fun _ => Except.error (ReqError.status 404)
  createRecord := fun _ _ _ _ _ => Except.error (ReqError.status 404)
  deleteRecord := fun _ => Except.ok ()

/-- C4 witness: on the simulated 250-entry remote, three units of fuel
suffice and the two aggregators fetch pages 1, 2, 3 and return the full
collections in order. -/
theorem pagination_three_pages_witness :
    list_zones pagedClient 3 =
      some (Except.ok
          ((zonesPage 1 ++ zonesPage 2 ++ zonesPage 3).map (fun zone => HetznerZone.mk zone)),
        [ApiCall.retrieveZones 1 100, ApiCall.retrieveZones 2 100,
          ApiCall.retrieveZones 3 100]) ∧
    HetznerZone.list_records pagedClient ⟨wZone⟩ 3 =
      some (Except.ok
          ((recordsPage 1 ++ recordsPage 2 ++ recordsPage 3).map (fun r => r.into_generic 3600)),
        [ApiCall.retrieveRecords "zone1" 1 100, ApiCall.retrieveRecords "zone1" 2 100,
          ApiCall.retrieveRecords "zone1" 3 100]) := by
  have h := pagination_three_pages pagedClient ⟨wZone⟩
    ⟨⟨⟨3, 1, 100, 250⟩⟩, zonesPage 1⟩ ⟨⟨⟨3, 2, 100, 250⟩⟩, zonesPage 2⟩
    ⟨⟨⟨3, 3, 100, 250⟩⟩, zonesPage 3⟩
    ⟨⟨⟨3, 1, 100, 250⟩⟩, recordsPage 1⟩ ⟨⟨⟨3, 2, 100, 250⟩⟩, recordsPage 2⟩
    ⟨⟨⟨3, 3, 100, 250⟩⟩, recordsPage 3⟩ 0
    rfl rfl rfl rfl
    (by simp [zonesPage]) (by simp [zonesPage]) (by simp [zonesPage])
    rfl rfl rfl rfl
    (by simp [recordsPage]) (by simp [recordsPage]) (by simp [recordsPage])
  exact ⟨h.1, h.2.2.1⟩

/-! ## C10: the pagination loop terminates only on an exact count match -/

/-- The concatenation of `n` consecutive zone pages starting at `start`,
wrapped the way the `list_zones` loop accumulates them. -/
def zonesConcat (pages : Nat → ZonesResponse) (start n : Nat) : List HetznerZone :=
  match n with
  | 0 => []
  | n + 1 =>
    (pages start).zones.map (fun zone => HetznerZone.mk zone) ++ zonesConcat pages (start + 1) n

/-- When every page fetch succeeds, a run of the `list_zones` loop with
a recorded total `T` can only return by accumulating some positive
number of consecutive pages whose combined length is exactly `T`. -/
theorem list_zonesLoop_count_exact (c : ApiClient) (pages : Nat → ZonesResponse)
    (hc : ∀ p, c.retrieveZones p 100 = Except.ok (pages p)) (T : Nat) :
    ∀ fuel page acc res log,
      list_zonesLoop c fuel page (some T) acc = some (res, log) →
      ∃ n, 1 ≤ n ∧ res = Except.ok (acc ++ zonesConcat pages page n) ∧
        (acc ++ zonesConcat pages page n).length = T := by
  intro fuel
  induction fuel with
  | zero =>
    intro page acc res log h
    simp [list_zonesLoop] at h
  | succ m ih =>
    intro page acc res log h
    simp only [list_zonesLoop, hc page, Option.isNone_some, Bool.false_eq_true, if_false] at h
    split at h
    · rename_i hcond
      simp only [Option.some.injEq, Prod.mk.injEq] at h
      obtain ⟨hres, -⟩ := h
      refine ⟨1, le_refl 1, ?_, ?_⟩
      · rw [← hres]
        simp [zonesConcat]
      · simp only [zonesConcat, List.append_nil]
        exact eq_of_beq hcond
    · rename_i hcond
      cases hrec : list_zonesLoop c m (page + 1) (some T)
          (acc ++ (pages page).zones.map (fun zone => HetznerZone.mk zone)) with
      | none =>
        simp only [hrec] at h
        exact Option.noConfusion h
      | some val =>
        simp only [hrec] at h
        obtain ⟨res', calls'⟩ := val
        simp only [Option.some.injEq, Prod.mk.injEq] at h
        obtain ⟨hres, -⟩ := h
        subst hres
        obtain ⟨n, hn, hres, hlen⟩ := ih (page + 1) _ res' calls' hrec
        refine ⟨n + 1, Nat.le_add_left 1 n, ?_, ?_⟩
        · rw [hres]
          simp [zonesConcat, List.append_assoc]
        · simp only [zonesConcat, ← List.append_assoc]
          exact hlen

/-- Lifting `list_zonesLoop_count_exact` to `list_zones`: the recorded
total is the one reported by page 1. -/
theorem list_zones_allOk (c : ApiClient) (pages : Nat → ZonesResponse)
    (hc : ∀ p, c.retrieveZones p 100 = Except.ok (pages p)) :
    ∀ fuel res log, list_zones c fuel = some (res, log) →
      ∃ n, 1 ≤ n ∧ res = Except.ok (zonesConcat pages 1 n) ∧
        (zonesConcat pages 1 n).length = (pages 1).meta.pagination.total_entries := by
  intro fuel res log h
  cases fuel with
  | zero => simp [list_zones, list_zonesLoop] at h
  | succ m =>
    simp only [list_zones, list_zonesLoop, hc 1, Option.isNone_none, if_true] at h
    split at h
    · rename_i hcond
      simp only [Option.some.injEq, Prod.mk.injEq] at h
      obtain ⟨hres, -⟩ := h
      refine ⟨1, le_refl 1, ?_, ?_⟩
      · rw [← hres]
        simp [zonesConcat]
      · have := eq_of_beq hcond
        simpa [zonesConcat] using this
    · cases hrec : list_zonesLoop c m 2 (some (pages 1).meta.pagination.total_entries)
          ([] ++ (pages 1).zones.map (fun zone => HetznerZone.mk zone)) with
      | none =>
        simp only [hrec] at h
        exact Option.noConfusion h
      | some val =>
        simp only [hrec] at h
        obtain ⟨res', calls'⟩ := val
        simp only [Option.some.injEq, Prod.mk.injEq] at h
        obtain ⟨hres, -⟩ := h
        subst hres
        obtain ⟨n, hn, hres, hlen⟩ :=
          list_zonesLoop_count_exact c pages hc _ m 2 _ res' calls' hrec
        refine ⟨n + 1, Nat.le_add_left 1 n, ?_, ?_⟩
        · rw [hres]
          simp [zonesConcat]
        · simpa [zonesConcat] using hlen

/-- The concatenation of `n` consecutive record pages starting at
`start`, decoded the way the `list_records` loop accumulates them. -/
def recordsConcat (z : HetznerZone) (pages : Nat → RecordsResponse) (start n : Nat) :
    List Record :=
  match n with
  | 0 => []
  | n + 1 =>
    (pages start).records.map (fun r => r.into_generic z.repr.ttl) ++
      recordsConcat z pages (start + 1) n

/-- Records analogue of `list_zonesLoop_count_exact`. -/
theorem list_recordsLoop_count_exact (c : ApiClient) (z : HetznerZone)
    (pages : Nat → RecordsResponse)
    (hc : ∀ p, c.retrieveRecords z.repr.id p 100 = Except.ok (pages p)) (T : Nat) :
    ∀ fuel page acc res log,
      list_recordsLoop c z fuel page (some T) acc = some (res, log) →
      ∃ n, 1 ≤ n ∧ res = Except.ok (acc ++ recordsConcat z pages page n) ∧
        (acc ++ recordsConcat z pages page n).length = T := by
  intro fuel
  induction fuel with
  | zero =>
    intro page acc res log h
    simp [list_recordsLoop] at h
  | succ m ih =>
    intro page acc res log h
    simp only [list_recordsLoop, hc page, Option.isNone_some, Bool.false_eq_true, if_false] at h
    split at h
    · rename_i hcond
      simp only [Option.some.injEq, Prod.mk.injEq] at h
      obtain ⟨hres, -⟩ := h
      refine ⟨1, le_refl 1, ?_, ?_⟩
      · rw [← hres]
        simp [recordsConcat]
      · simp only [recordsConcat, List.append_nil]
        exact eq_of_beq hcond
    · rename_i hcond
      cases hrec : list_recordsLoop c z m (page + 1) (some T)
          (acc ++ (pages page).records.map (fun r => r.into_generic z.repr.ttl)) with
      | none =>
        simp only [hrec] at h
        exact Option.noConfusion h
      | some val =>
        simp only [hrec] at h
        obtain ⟨res', calls'⟩ := val
        simp only [Option.some.injEq, Prod.mk.injEq] at h
        obtain ⟨hres, -⟩ := h
        subst hres
        obtain ⟨n, hn, hres, hlen⟩ := ih (page + 1) _ res' calls' hrec
        refine ⟨n + 1, Nat.le_add_left 1 n, ?_, ?_⟩
        · rw [hres]
          simp [recordsConcat, List.append_assoc]
        · simp only [recordsConcat, ← List.append_assoc]
          exact hlen

/-- Records analogue of `list_zones_allOk`. -/
theorem list_records_allOk (c : ApiClient) (z : HetznerZone) (pages : Nat → RecordsResponse)
    (hc : ∀ p, c.retrieveRecords z.repr.id p 100 = Except.ok (pages p)) :
    ∀ fuel res log, HetznerZone.list_records c z fuel = some (res, log) →
      ∃ n, 1 ≤ n ∧ res = Except.ok (recordsConcat z pages 1 n) ∧
        (recordsConcat z pages 1 n).length = (pages 1).meta.pagination.total_entries := by
  intro fuel res log h
  cases fuel with
  | zero => simp [HetznerZone.list_records, list_recordsLoop] at h
  | succ m =>
    simp only [HetznerZone.list_records, list_recordsLoop, hc 1, Option.isNone_none,
      if_true] at h
    split at h
    · rename_i hcond
      simp only [Option.some.injEq, Prod.mk.injEq] at h
      obtain ⟨hres, -⟩ := h
      refine ⟨1, le_refl 1, ?_, ?_⟩
      · rw [← hres]
        simp [recordsConcat]
      · have := eq_of_beq hcond
        simpa [recordsConcat] using this
    · cases hrec : list_recordsLoop c z m 2 (some (pages 1).meta.pagination.total_entries)
          ([] ++ (pages 1).records.map (fun r => r.into_generic z.repr.ttl)) with
      | none =>
        simp only [hrec] at h
        exact Option.noConfusion h
      | some val =>
        simp only [hrec] at h
        obtain ⟨res', calls'⟩ := val
        simp only [Option.some.injEq, Prod.mk.injEq] at h
        obtain ⟨hres, -⟩ := h
        subst hres
        obtain ⟨n, hn, hres, hlen⟩ :=
          list_recordsLoop_count_exact c z pages hc _ m 2 _ res' calls' hrec
        refine ⟨n + 1, Nat.le_add_left 1 n, ?_, ?_⟩
        · rw [hres]
          simp [recordsConcat]
        · simpa [recordsConcat] using hlen

/-- C10: when every page fetch succeeds, the pagination loop can only
terminate with a prefix of pages whose accumulated length equals the
total reported by the first page exactly; consequently, whenever no
prefix of the page sequence ever matches that total exactly — in
particular when the accumulated count jumps past it — no amount of fuel
makes `list_zones` / `list_records` return: the loop never terminates by
count. -/
theorem pagination_terminates_only_on_exact_count
    (c : ApiClient) (z : HetznerZone)
    (zpages : Nat → ZonesResponse) (rpages : Nat → RecordsResponse)
    (hcz : ∀ p, c.retrieveZones p 100 = Except.ok (zpages p))
    (hcr : ∀ p, c.retrieveRecords z.repr.id p 100 = Except.ok (rpages p)) :
    (∀ fuel res log, list_zones c fuel = some (res, log) →
      ∃ n, 1 ≤ n ∧ res = Except.ok (zonesConcat zpages 1 n) ∧
        (zonesConcat zpages 1 n).length = (zpages 1).meta.pagination.total_entries) ∧
    ((∀ n, 1 ≤ n →
        (zonesConcat zpages 1 n).length ≠ (zpages 1).meta.pagination.total_entries) →
      ∀ fuel, list_zones c fuel = none) ∧
    (∀ fuel res log, HetznerZone.list_records c z fuel = some (res, log) →
      ∃ n, 1 ≤ n ∧ res = Except.ok (recordsConcat z rpages 1 n) ∧
        (recordsConcat z rpages 1 n).length = (rpages 1).meta.pagination.total_entries) ∧
    ((∀ n, 1 ≤ n →
        (recordsConcat z rpages 1 n).length ≠ (rpages 1).meta.pagination.total_entries) →
      ∀ fuel, HetznerZone.list_records c z fuel = none) := by
  refine ⟨list_zones_allOk c zpages hcz, ?_, list_records_allOk c z rpages hcr, ?_⟩
  · intro hnever fuel
    cases h : list_zones c fuel with
    | none => rfl
    | some val =>
      obtain ⟨res, log⟩ := val
      obtain ⟨n, hn, -, hlen⟩ := list_zones_allOk c zpages hcz fuel res log h
      exact absurd hlen (hnever n hn)
  · intro hnever fuel
    cases h : HetznerZone.list_records c z fuel with
    | none => rfl
    | some val =>
      obtain ⟨res, log⟩ := val
      obtain ⟨n, hn, -, hlen⟩ := list_records_allOk c z rpages hcr fuel res log h
      exact absurd hlen (hnever n hn)

/-- A stub transport whose list endpoints report one total entry but
deliver empty pages forever: the accumulated count never reaches the
reported total. -/
def emptyPagesClient : ApiClient where
  retrieveZone := fun _ => Except.error (ReqError.status 404)
  retrieveZones := fun page _ => Except.ok ⟨⟨⟨1, page, 100, 1⟩⟩, []⟩
  createZone := fun _ => Except.error ReqError.transport
  deleteZone := fun _ => Except.ok ()
  retrieveRecords := fun _ page _ => Except.ok ⟨⟨⟨1, page, 100, 1⟩⟩, []⟩
  retrieveRecord := fun _ => Except.error (ReqError.status 404)
  createRecord := fun _ _ _ _ _ => Except.error (ReqError.status 404)
  deleteRecord := fun _ => Except.ok ()

/-- Empty pages accumulate to the empty list. -/
theorem zonesConcat_emptyPages :
    ∀ n start, zonesConcat (fun p => ⟨⟨⟨1, p, 100, 1⟩⟩, []⟩) start n = [] := by
  intro n
  induction n with
  | zero => intro start; rfl
  | succ m ih =>
    intro start
    simp [zonesConcat, ih]

/-- Empty record pages accumulate to the empty list. -/
theorem recordsConcat_emptyPages (z : HetznerZone) :
    ∀ n start, recordsConcat z (fun p => ⟨⟨⟨1, p, 100, 1⟩⟩, []⟩) start n = [] := by
  intro n
  induction n with
  | zero => intro start; rfl
  | succ m ih =>
    intro start
    simp [recordsConcat, ih]

/-- C10 witness: on the empty-pages stub the accumulated count stays 0
and never equals the reported total 1, so neither aggregator returns
within 25 units of fuel (nor any other amount). -/
theorem pagination_terminates_only_on_exact_count_witness :
    list_zones emptyPagesClient 25 = none ∧
    HetznerZone.list_records emptyPagesClient ⟨wZone⟩ 25 = none :=
  ⟨(pagination_terminates_only_on_exact_count emptyPagesClient ⟨wZone⟩
      (fun p => ⟨⟨⟨1, p, 100, 1⟩⟩, []⟩) (fun p => ⟨⟨⟨1, p, 100, 1⟩⟩, []⟩)
      (fun _ => rfl) (fun _ => rfl)).2.1
      (fun n hn => by rw [zonesConcat_emptyPages]; simp) 25,
   (pagination_terminates_only_on_exact_count emptyPagesClient ⟨wZone⟩
      (fun p => ⟨⟨⟨1, p, 100, 1⟩⟩, []⟩) (fun p => ⟨⟨⟨1, p, 100, 1⟩⟩, []⟩)
      (fun _ => rfl) (fun _ => rfl)).2.2.2
      (fun n hn => by rw [recordsConcat_emptyPages]; simp) 25⟩

/-- C2 witness instance: a two-token value parses to `MX` by the
characterization, and a one-token value falls back to `Other`. -/
theorem from_raw_mx_srv_token_characterization_witness :
    RecordData.from_raw "MX" "bad" = RecordData.Other "MX" "bad" ∧
    (∃ p s, RecordData.from_raw "MX" "10 mail.example.com" = RecordData.MX p s) :=
  ⟨(from_raw_mx_srv_token_characterization "bad").2.1.mpr
     (by unfold mxShape; decide),
   (from_raw_mx_srv_token_characterization "10 mail.example.com").1.mpr
     ⟨by decide, by decide⟩⟩

/-- C3 witness instance: a 404 on `get_zone` maps to `NotFound` and a
401 maps to `Unauthorized`. -/
theorem status_code_mapping_amended_witness :
    (get_zone (errClient (ReqError.status 404)) "zone1").1 =
      Except.error RetrieveZoneError.NotFound ∧
    (get_zone (errClient (ReqError.status 401)) "zone1").1 =
      Except.error RetrieveZoneError.Unauthorized :=
  ⟨by simpa using (status_code_mapping_amended 404 0).1,
   by simpa using (status_code_mapping_amended 401 0).1⟩
